import Mathlib

/-!
Verification of the agent session client of the papers-rag web backend
(`agent_service.py`, `main.py`).  The HTTP transport (the `requests`
library and the remote service) is modelled as an oracle: each remote
call's outcome (a response with a status code and a body, or a transport
failure) is an explicit input, and the functions of the repository are
embedded as pure Lean functions over those outcomes.  Each embedded
operation also returns the trace of remote requests it issued, so that
"never issues a create request" style properties are statements about
the trace.
-/

/-- JSON values, the shape produced by Python's `json.loads` on the
payloads this client handles (integer numerals; no floats, which never
occur in the payloads considered here). -/
inductive Json where
  | null
  | bool (b : Bool)
  | num (n : Int)
  | str (s : String)
  | arr (elems : List Json)
  | obj (fields : List (String × Json))

/-- Python truthiness (`if sessions_list:`) restricted to JSON values. -/
def Json.truthy : Json → Bool
  | .null => false
  | .bool b => b
  | .num n => n != 0
  | .str s => s != ""
  | .arr elems => !elems.isEmpty
  | .obj fields => !fields.isEmpty

/-- `x[0]` on a JSON value: defined exactly on non-empty arrays; on any
other value the Python expression raises (IndexError/TypeError/KeyError),
modelled as `none`. -/
def Json.index0 : Json → Option Json
  | .arr (x :: _) => some x
  | _ => none

/-- `x[key]` on a JSON value: defined on objects carrying the key; on any
other value the Python expression raises, modelled as `none`. -/
def Json.getField : Json → String → Option Json
  | .obj fields, key => fields.lookup key
  | _, _ => none

def quoteChar : Char := Char.ofNat 34

def backslashChar : Char := Char.ofNat 92

def lbraceChar : Char := Char.ofNat 123

def rbraceChar : Char := Char.ofNat 125

def lbrackChar : Char := Char.ofNat 91

def rbrackChar : Char := Char.ofNat 93

/-- Whitespace skipped by the JSON grammar. -/
def skipWs : List Char → List Char
  | c :: rest =>
    if c = ' ' ∨ c = '\t' ∨ c = '\n' ∨ c = '\r' then skipWs rest else c :: rest
  | [] => []

/-- JSON string escapes (`json.loads` escape table; `\uXXXX` is left
unsupported, making such strings fail to parse). -/
def escMap (c : Char) : Option Char :=
  if c = quoteChar then some quoteChar
  else if c = backslashChar then some backslashChar
  else if c = '/' then some '/'
  else if c = 'n' then some '\n'
  else if c = 't' then some '\t'
  else if c = 'r' then some '\r'
  else if c = 'b' then some (Char.ofNat 8)
  else if c = 'f' then some (Char.ofNat 12)
  else none

/-- Body of a JSON string after the opening quote: returns the decoded
content and the characters following the closing quote. -/
def strBody : List Char → Option (List Char × List Char)
  | [] => none
  | c :: rest =>
    if c = quoteChar then some ([], rest)
    else if c = backslashChar then
      match rest with
      | [] => none
      | e :: rest2 =>
        match escMap e, strBody rest2 with
        | some ec, some (s, r) => some (ec :: s, r)
        | _, _ => none
    else
      match strBody rest with
      | some (s, r) => some (c :: s, r)
      | none => none

/-- Digits of a decimal numeral into its value. -/
def natOfDigits (ds : List Char) : Nat :=
  ds.foldl (fun n c => 10 * n + (c.toNat - 48)) 0

/-- Integer numeral (optional leading minus, then digits). -/
def parseIntNum (cs : List Char) : Option (Int × List Char) :=
  match cs with
  | '-' :: rest =>
    let (ds, r) := rest.span Char.isDigit
    if ds.isEmpty then none else some (-(natOfDigits ds : Int), r)
  | _ =>
    let (ds, r) := cs.span Char.isDigit
    if ds.isEmpty then none else some ((natOfDigits ds : Int), r)

mutual

/-- One JSON value (fuel-indexed recursive descent). -/
def jVal : Nat → List Char → Option (Json × List Char)
  | 0, _ => none
  | Nat.succ f, cs =>
    match skipWs cs with
    | [] => none
    | c :: rest =>
      if c = quoteChar then
        match strBody rest with
        | some (s, r) => some (Json.str (String.mk s), r)
        | none => none
      else if c = lbraceChar then jObj f (skipWs rest)
      else if c = lbrackChar then jArr f (skipWs rest)
      else if c = 'n' then
        if List.isPrefixOf ['u', 'l', 'l'] rest then some (Json.null, rest.drop 3)
        else none
      else if c = 't' then
        if List.isPrefixOf ['r', 'u', 'e'] rest then some (Json.bool true, rest.drop 3)
        else none
      else if c = 'f' then
        if List.isPrefixOf ['a', 'l', 's', 'e'] rest then some (Json.bool false, rest.drop 4)
        else none
      else
        match parseIntNum (c :: rest) with
        | some (n, r) => some (Json.num n, r)
        | none => none

/-- Array elements after `[` (whitespace already skipped). -/
def jArr : Nat → List Char → Option (Json × List Char)
  | 0, _ => none
  | Nat.succ f, cs =>
    match cs with
    | c :: rest =>
      if c = rbrackChar then some (Json.arr [], rest)
      else
        match jVal f cs with
        | some (v, r) => jArrTail f [v] r
        | none => none
    | [] => none

/-- Remaining array elements, accumulated in reverse. -/
def jArrTail : Nat → List Json → List Char → Option (Json × List Char)
  | 0, _, _ => none
  | Nat.succ f, acc, cs =>
    match skipWs cs with
    | c :: rest =>
      if c = rbrackChar then some (Json.arr acc.reverse, rest)
      else if c = ',' then
        match jVal f rest with
        | some (v, r) => jArrTail f (v :: acc) r
        | none => none
      else none
    | [] => none

/-- Object fields after the opening brace (whitespace already skipped). -/
def jObj : Nat → List Char → Option (Json × List Char)
  | 0, _ => none
  | Nat.succ f, cs =>
    match cs with
    | c :: rest =>
      if c = rbraceChar then some (Json.obj [], rest)
      else if c = quoteChar then
        match strBody rest with
        | some (k, r) =>
          match skipWs r with
          | ':' :: r2 =>
            match jVal f r2 with
            | some (v, r3) => jObjTail f [(String.mk k, v)] r3
            | none => none
          | _ => none
        | none => none
      else none
    | [] => none

/-- Remaining object fields, accumulated in reverse. -/
def jObjTail : Nat → List (String × Json) → List Char → Option (Json × List Char)
  | 0, _, _ => none
  | Nat.succ f, acc, cs =>
    match skipWs cs with
    | c :: rest =>
      if c = rbraceChar then some (Json.obj acc.reverse, rest)
      else if c = ',' then
        match skipWs rest with
        | q :: r =>
          if q = quoteChar then
            match strBody r with
            | some (k, r1) =>
              match skipWs r1 with
              | ':' :: r2 =>
                match jVal f r2 with
                | some (v, r3) => jObjTail f ((String.mk k, v) :: acc) r3
                | none => none
              | _ => none
            | none => none
          else none
        | [] => none
      else none
    | [] => none

end

/-- `json.loads` on a character sequence: one JSON document followed only
by whitespace; anything else fails (`JSONDecodeError`, modelled `none`). -/
def parseJsonStr (cs : List Char) : Option Json :=
  match jVal (cs.length + 1) cs with
  | some (v, rest) => if skipWs rest = [] then some v else none
  | none => none

/-- An HTTP response as seen by the client: the status code and the raw
body text.  `requests`' `iter_lines` and `.json()` are derived from the
body below. -/
structure HttpResponse where
  status : Nat
  text : List Char

/-- Outcome of one `requests` call: either a response arrived (possibly
with an error status), or the transport failed before any response
(`ConnectionError`, timeout, ... — the non-`HTTPError` branches of
`RequestException`). -/
inductive ReqResult where
  | response (r : HttpResponse)
  | netFail (msg : String)

/-- `response.raise_for_status()` raises exactly for 4xx/5xx codes. -/
def isErrorStatus (s : Nat) : Bool :=
  if 400 ≤ s ∧ s < 600 then true else false

/-- `splitLinesAux pendingCR cs acc` splits `cs` at `\n`, `\r\n` or
`\r`, with `acc` the (reversed) current line and `pendingCR` recording
that the previous character was a `\r` (so a directly following `\n`
belongs to the same break); a trailing line break produces no empty
final line, matching Python's `splitlines` used by `iter_lines`. -/
def splitLinesAux : Bool → List Char → List Char → List (List Char)
  | _, [], acc => if acc.isEmpty then [] else [acc.reverse]
  | pendingCR, c :: rest, acc =>
    if c = '\n' then
      if pendingCR then splitLinesAux false rest acc
      else acc.reverse :: splitLinesAux false rest []
    else if c = '\r' then acc.reverse :: splitLinesAux true rest []
    else splitLinesAux false rest (c :: acc)

/-- `response.iter_lines()`: the body split into lines, delimiters
stripped. -/
def splitLines (cs : List Char) : List (List Char) :=
  splitLinesAux false cs []

/-- The fixed remote configuration of `AgentService.__init__`. -/
def cloud_run_url : String :=
  "https://papers-rag-1-master-1031636165462.us-central1.run.app"

/-- The fixed application name of `AgentService.__init__`. -/
def app_name : String := "papers-rag-agent"

/-- One remote request issued by the client, recorded in traces. -/
inductive AgentRequest where
  | listSessions (appName userId : String)
  | createSession (appName userId sessionId : String)
  | runSse (appName userId : String) (sessionId : Json) (message : String) (streaming : Bool)
  | deleteSessionCall (appName userId sessionId : String)

/-- Result of `get_or_create_session`: `(True, session_id)`,
`(False, None)`, or a Python exception escaping the function (the `try`
blocks only catch `requests.exceptions.RequestException`). -/
inductive SessionOutcome where
  | ok (sessionId : Json)
  | fail
  | exn (msg : String)

/-- Step 3 of `get_or_create_session` (the second `try` block): POST the
create call at the caller-supplied id; a 2xx answers
`(True, new_session_id_if_needed)`, any `RequestException`
answers `(False, None)`. -/
def createSessionStep (createResult : ReqResult) (newSessionId : String) :
    SessionOutcome :=
  match createResult with
  | .netFail _ => .fail
  | .response cr =>
    if isErrorStatus cr.status then .fail else .ok (Json.str newSessionId)

/-- `AgentService.get_or_create_session`: list the user's sessions; on a
non-empty (truthy) list reuse the first element's `id`; on an empty list
create a session under `newSessionId` (`createSessionStep`); any
`RequestException` in either step yields `(False, None)`.  `listResult`
and `createResult` are the transport oracle for the two calls; the
second component is the trace of requests actually issued. -/
def get_or_create_session (listResult createResult : ReqResult)
    (appName userId newSessionId : String) :
    SessionOutcome × List AgentRequest :=
  let listReq := AgentRequest.listSessions appName userId
  match listResult with
  | .netFail _ => (.fail, [listReq])
  | .response r =>
    if isErrorStatus r.status then (.fail, [listReq])
    else
      match parseJsonStr r.text with
      | none => (.exn "JSONDecodeError", [listReq])
      | some sessionsList =>
        if sessionsList.truthy then
          match sessionsList.index0 with
          | none => (.exn "IndexError", [listReq])
          | some first =>
            match first.getField "id" with
            | none => (.exn "KeyError", [listReq])
            | some existingId => (.ok existingId, [listReq])
        else
          (createSessionStep createResult newSessionId,
            [listReq, AgentRequest.createSession appName userId newSessionId])

/-- Result of `run_agent_sse`: the decoded events, or a re-raised
`HTTPError` carrying the response's status and body, or a re-raised
transport error. -/
inductive RunOutcome where
  | ok (events : List Json)
  | httpError (status : Nat) (body : List Char)
  | netError (msg : String)

/-- The literal prefix `data: ` of an SSE frame. -/
def dataLinePrefix : List Char := "data: ".toList

/-- One iteration of `run_agent_sse`'s decoding loop: a non-empty line
starting with `data: ` has the prefix stripped and the rest parsed as
JSON; a parse failure is skipped with a warning (`none`); any other line
is ignored. -/
def decodeEventLine (line : List Char) : Option Json :=
  if !line.isEmpty ∧ List.isPrefixOf dataLinePrefix line then
    parseJsonStr (line.drop dataLinePrefix.length)
  else none

/-- The whole decoding loop over `response.iter_lines()`. -/
def decodeEvents (lines : List (List Char)) : List Json :=
  lines.filterMap decodeEventLine

/-- `AgentService.run_agent_sse`: POST the message to `/run_sse`;
`raise_for_status` turns a 4xx/5xx response into a re-raised `HTTPError`
before any line is decoded; otherwise decode the body lines. -/
def run_agent_sse (postResult : ReqResult) (appName userId : String)
    (sessionId : Json) (message : String) (useStreaming : Bool) :
    RunOutcome × List AgentRequest :=
  let req := AgentRequest.runSse appName userId sessionId message useStreaming
  match postResult with
  | .netFail m => (.netError m, [req])
  | .response r =>
    if isErrorStatus r.status then (.httpError r.status r.text, [req])
    else (.ok (decodeEvents (splitLines r.text)), [req])

/-- The transport oracle for one `send_message` call: the outcome of
`get_gcloud_auth_token` and of the three possible remote calls, in the
order the code can issue them. -/
structure AgentEnv where
  tokenResult : Except String String
  listResult : ReqResult
  createResult : ReqResult
  runResult : ReqResult

/-- Result of `send_message`: the `(events, actual_session_id)` pair, or
a Python exception propagated to the caller (the outer `except` re-raises
everything it catches). -/
inductive SendOutcome where
  | ok (events : List Json) (actualSessionId : Json)
  | exn (msg : String)

/-- `AgentService.send_message`: fetch one token, resolve the session
(candidate `sessionId` used only if a new session is needed), raise if
resolution returned `False`, then dispatch with the resolved id and
`use_streaming` left at its default `False`; any failure propagates. -/
def send_message (env : AgentEnv) (userId sessionId message : String) :
    SendOutcome × List AgentRequest :=
  match env.tokenResult with
  | .error _ => (.exn "gcloud command failed", [])
  | .ok _token =>
    match get_or_create_session env.listResult env.createResult app_name userId sessionId with
    | (.fail, tr) => (.exn "Failed to create or retrieve session", tr)
    | (.exn m, tr) => (.exn m, tr)
    | (.ok actualSessionId, tr) =>
      match run_agent_sse env.runResult app_name userId actualSessionId message false with
      | (.ok events, tr2) => (.ok events actualSessionId, tr ++ tr2)
      | (.httpError st _, tr2) => (.exn ("HTTPError " ++ toString st), tr ++ tr2)
      | (.netError m, tr2) => (.exn m, tr ++ tr2)

/-- `AgentService.delete_session`: DELETE the session; `raise_for_status`
errors (404 included) and transport errors are both caught and turned
into `False`; any non-error status (204 No Content included) is `True`. -/
def delete_session (delResult : ReqResult)
    (appName userId sessionId : String) : Bool :=
  match delResult with
  | .netFail _ => false
  | .response r => !isErrorStatus r.status

/-- `AgentService.delete_user_session`: fetch a token, then
`delete_session`; the surrounding `except Exception` converts a token
failure into `False` as well. -/
def delete_user_session (tokenResult : Except String String)
    (delResult : ReqResult) (userId sessionId : String) : Bool :=
  match tokenResult with
  | .error _ => false
  | .ok _token => delete_session delResult app_name userId sessionId

/-- The body of `POST /message_to_agent` (`MessageToAgentRequest`). -/
structure MessageToAgentRequest where
  user_email : String
  session_id : String
  message_to_agent : String

/-- The response model of `POST /message_to_agent`
(`MessageToAgentResponse`); `session_id` is `Json` because the success
path returns `actual_session_id` exactly as extracted from the remote
list response. -/
structure MessageToAgentResponse where
  status : String
  message : String
  session_id : Option Json

/-- `events[-1]["content"]["parts"][0]["text"]`; `none` models the
indexing raising (KeyError/IndexError/TypeError). -/
def extractReplyText (events : List Json) : Option Json := do
  let lastEvent ← events.getLast?
  let content ← Json.getField lastEvent "content"
  let parts ← Json.getField content "parts"
  let part0 ← parts.index0
  Json.getField part0 "text"

/-- The `message_to_agent` route handler (after JWT authentication):
call `send_message`; with a non-empty event list answer `success` with
the last event's text and the resolved session id; with an empty list
answer `fail`/"No response from agent" with the request's own
`session_id`; any exception (from `send_message`, from reply extraction,
or from response validation of a non-string reply) is caught and
answered as `fail` with the request's own `session_id`. -/
def message_to_agent (env : AgentEnv) (req : MessageToAgentRequest) :
    MessageToAgentResponse :=
  match send_message env req.user_email req.session_id req.message_to_agent with
  | (.exn m, _) =>
    ⟨"fail", "Error communicating with agent: " ++ m, some (.str req.session_id)⟩
  | (.ok events actualSessionId, _) =>
    if !events.isEmpty then
      match extractReplyText events with
      | some (Json.str t) => ⟨"success", t, some actualSessionId⟩
      | _ =>
        ⟨"fail", "Error communicating with agent: reply extraction failed",
          some (.str req.session_id)⟩
    else ⟨"fail", "No response from agent", some (.str req.session_id)⟩

/-! Concrete inputs used by the witnesses and counterexamples. -/

def c1_listBody : List Char := "[\x7b\"id\":\"s1\"\x7d]".toList

def c7_body : List Char := "data: \x7b\"a\":1\x7d\n\ndata: not-json\n".toList

def c2_docLine : List Char := "\x7b\"a\":1\x7d".toList

def c8_env : AgentEnv :=
  { tokenResult := .ok "tok"
    listResult := .response ⟨200, "[\x7b\"id\":\"s1\"\x7d]".toList⟩
    createResult := .netFail "unused"
    runResult := .response ⟨200, "data: \x7b\"x\":2\x7d\n".toList⟩ }

def c9_env : AgentEnv :=
  { tokenResult := .ok "tok"
    listResult := .response ⟨200, "[\x7b\"id\":\"s1\"\x7d]".toList⟩
    createResult := .netFail "unused"
    runResult := .response ⟨200, [] ⟩ }

/-! ## Theorems -/

/-- Sanity of the `json.loads` model on the documents appearing in
the testable properties. -/
theorem parseJsonStr_sanity :
    parseJsonStr "\x7b\"a\":1\x7d".toList = some (Json.obj [("a", Json.num 1)])
    ∧ parseJsonStr "not-json".toList = none
    ∧ parseJsonStr "[\x7b\"id\":\"s1\"\x7d]".toList
        = some (Json.arr [Json.obj [("id", Json.str "s1")]])
    ∧ splitLines "a\n\nb\n".toList = [['a'], [], ['b']] :=
  ⟨by rfl, by rfl, by rfl, by rfl⟩

/-- On newline-free input, line splitting accumulates everything into a
single line (or nothing when both the accumulator and the input are
empty). -/
theorem splitLinesAux_no_newline (cs : List Char) :
    ∀ acc, (∀ c ∈ cs, c ≠ '\n' ∧ c ≠ '\r') →
    splitLinesAux false cs acc
      = if acc = [] ∧ cs = [] then [] else [acc.reverse ++ cs] := by
  induction cs with
  | nil =>
    intro acc _
    cases acc with
    | nil => simp [splitLinesAux]
    | cons a as => simp [splitLinesAux]
  | cons c rest ih =>
    intro acc h
    have hc : c ≠ '\n' ∧ c ≠ '\r' := h c (by simp)
    have hrest : ∀ x ∈ rest, x ≠ '\n' ∧ x ≠ '\r' := fun x hx => h x (by simp [hx])
    simp only [splitLinesAux]
    rw [if_neg hc.1, if_neg hc.2, ih (c :: acc) hrest]
    simp

/-- C1: whenever the list-sessions call succeeds (non-error status) and
its body is a non-empty JSON array whose first element carries an `id`,
`get_or_create_session` returns exactly that id, and the trace contains
only the list request — no create request is ever issued. -/
theorem get_or_create_session_reuses_first (createResult : ReqResult)
    (appName userId newSessionId : String) (r : HttpResponse)
    (first : Json) (rest : List Json) (v : Json)
    (hstatus : isErrorStatus r.status = false)
    (hbody : parseJsonStr r.text = some (Json.arr (first :: rest)))
    (hid : Json.getField first "id" = some v) :
    get_or_create_session (.response r) createResult appName userId newSessionId
      = (.ok v, [.listSessions appName userId]) := by
  simp [get_or_create_session, hstatus, hbody, Json.truthy, Json.index0, hid]

/-- Witness for C1 at a concrete list response `[{"id":"s1"}]`. -/
theorem get_or_create_session_reuses_first_witness :
    get_or_create_session (.response ⟨200, c1_listBody⟩) (.netFail "unused")
      app_name "u1" "s2"
      = (.ok (Json.str "s1"), [.listSessions app_name "u1"]) :=
  get_or_create_session_reuses_first (.netFail "unused") app_name "u1" "s2"
    ⟨200, c1_listBody⟩ (Json.obj [("id", Json.str "s1")]) [] (Json.str "s1")
    (by decide) (by rfl) (by rfl)

/-- C6: when the list-sessions call fails — transport failure or any
4xx/5xx status — `get_or_create_session` answers the failure outcome
`(False, None)` and the trace contains only the list request: no create
request is issued, so the failure is never masked as "no session" plus
creation. -/
theorem get_or_create_session_list_failure_no_create :
    (∀ (createResult : ReqResult) (appName userId newSessionId msg : String),
      get_or_create_session (.netFail msg) createResult appName userId newSessionId
        = (.fail, [.listSessions appName userId]))
    ∧ (∀ (createResult : ReqResult) (appName userId newSessionId : String)
        (r : HttpResponse),
      isErrorStatus r.status = true →
      get_or_create_session (.response r) createResult appName userId newSessionId
        = (.fail, [.listSessions appName userId])) := by
  constructor
  · intro createResult appName userId newSessionId msg
    simp [get_or_create_session]
  · intro createResult appName userId newSessionId r herr
    simp [get_or_create_session, herr]

/-- Witness for C6 at a concrete HTTP 500 list response. -/
theorem get_or_create_session_list_failure_no_create_witness :
    get_or_create_session (.response ⟨500, "err".toList⟩)
      (.response ⟨200, "[]".toList⟩) app_name "u1" "s1"
      = (.fail, [.listSessions app_name "u1"]) :=
  get_or_create_session_list_failure_no_create.2
    (.response ⟨200, "[]".toList⟩) app_name "u1" "s1"
    ⟨500, "err".toList⟩ (by decide)

/-- C4: when the dispatch response has an error status (4xx/5xx),
`run_agent_sse` re-raises an `HTTPError` carrying exactly the remote
status code and body, and never produces an event list. -/
theorem run_agent_sse_http_error (appName userId : String) (sessionId : Json)
    (message : String) (useStreaming : Bool) (r : HttpResponse)
    (herr : isErrorStatus r.status = true) :
    run_agent_sse (.response r) appName userId sessionId message useStreaming
      = (.httpError r.status r.text,
          [.runSse appName userId sessionId message useStreaming])
    ∧ ∀ events,
      (run_agent_sse (.response r) appName userId sessionId
          message useStreaming).fst ≠ .ok events := by
  constructor
  · simp [run_agent_sse, herr]
  · intro events
    simp [run_agent_sse, herr]

/-- Witness for C4 at a concrete HTTP 500 response with body `boom`. -/
theorem run_agent_sse_http_error_witness :
    run_agent_sse (.response ⟨500, "boom".toList⟩) app_name "u1"
      (Json.str "s1") "hello" false
      = (.httpError 500 "boom".toList,
          [.runSse app_name "u1" (Json.str "s1") "hello" false]) :=
  (run_agent_sse_http_error app_name "u1" (Json.str "s1") "hello" false
    ⟨500, "boom".toList⟩ (by decide)).1

/-- C5: session termination always answers a boolean — `False` on any
transport failure and on any 4xx/5xx status (a 404 for an already-gone
session included, so "not found" is never idempotent success), `True` on
any 2xx (204 No Content included); `delete_user_session` additionally
maps a credential failure to `False` and otherwise behaves as
`delete_session`. -/
theorem delete_session_boolean_semantics :
    (∀ (appName userId sessionId msg : String),
      delete_session (.netFail msg) appName userId sessionId = false)
    ∧ (∀ (appName userId sessionId : String) (r : HttpResponse),
      isErrorStatus r.status = true →
      delete_session (.response r) appName userId sessionId = false)
    ∧ (∀ (appName userId sessionId : String) (r : HttpResponse),
      200 ≤ r.status → r.status < 300 →
      delete_session (.response r) appName userId sessionId = true)
    ∧ (∀ (userId sessionId msg : String) (delResult : ReqResult),
      delete_user_session (.error msg) delResult userId sessionId = false)
    ∧ (∀ (userId sessionId tok : String) (delResult : ReqResult),
      delete_user_session (.ok tok) delResult userId sessionId
        = delete_session delResult app_name userId sessionId) := by
  refine ⟨?_, ?_, ?_, ?_, ?_⟩
  · intro appName userId sessionId msg
    simp [delete_session]
  · intro appName userId sessionId r herr
    simp [delete_session, herr]
  · intro appName userId sessionId r h2 h3
    have hn : ¬(400 ≤ r.status ∧ r.status < 600) := by omega
    simp [delete_session, isErrorStatus, hn]
  · intro userId sessionId msg delResult
    simp [delete_user_session]
  · intro userId sessionId tok delResult
    simp [delete_user_session]

/-- Witness for C5: a 404 on an already-deleted session answers `false`,
a 204 No Content answers `true`, and a token failure answers `false`. -/
theorem delete_session_boolean_semantics_witness :
    delete_session (.response ⟨404, "not found".toList⟩) app_name "u1" "s1" = false
    ∧ delete_session (.response ⟨204, [] ⟩) app_name "u1" "s1" = true
    ∧ delete_user_session (.error "gcloud command failed")
        (.response ⟨204, [] ⟩) "u1" "s1" = false :=
  ⟨delete_session_boolean_semantics.2.1 app_name "u1" "s1"
      ⟨404, "not found".toList⟩ (by decide),
    delete_session_boolean_semantics.2.2.1 app_name "u1" "s1"
      ⟨204, [] ⟩ (by decide) (by decide),
    delete_session_boolean_semantics.2.2.2.1 "u1" "s1" "gcloud command failed"
      (.response ⟨204, [] ⟩)⟩

/-- C7: a malformed `data: `-prefixed frame is skipped and decoding
continues with the remaining lines — never failing the whole call — and
on the concrete stream `data: {"a":1}`, a blank line, `data: not-json`,
`run_agent_sse` yields exactly the one well-formed event. -/
theorem decode_skips_malformed :
    (∀ (line : List Char) (rest : List (List Char)),
      List.isPrefixOf dataLinePrefix line = true →
      parseJsonStr (line.drop dataLinePrefix.length) = none →
      decodeEvents (line :: rest) = decodeEvents rest)
    ∧ (run_agent_sse (.response ⟨200, c7_body⟩) app_name "u1"
        (Json.str "s1") "hi" true).fst
      = .ok [Json.obj [("a", Json.num 1)]] := by
  constructor
  · intro line rest hpre hparse
    match line with
    | [] => simp [dataLinePrefix] at hpre
    | c :: cs =>
      simp [decodeEvents, List.filterMap_cons, decodeEventLine, hpre, hparse]
  · rfl

/-- Witness for C7's universal part at the concrete malformed frame
`data: not-json`. -/
theorem decode_skips_malformed_witness :
    decodeEvents ["data: not-json".toList] = decodeEvents [] :=
  decode_skips_malformed.1 "data: not-json".toList [] (by decide) (by rfl)

/-- C2 counterexample: a response whose body is the single buffered JSON
document `{"a":1}` (it parses as one document) makes the decoding loop
yield the empty sequence — length 0, not length 1 as claimed — because
no line carries the `data: ` prefix. -/
theorem run_agent_sse_buffered_doc_counterexample :
    parseJsonStr c2_docLine = some (Json.obj [("a", Json.num 1)])
    ∧ (run_agent_sse (.response ⟨200, c2_docLine⟩) app_name "u1"
        (Json.str "s1") "hi" false).fst
      = .ok []
    ∧ ([] : List Json).length ≠ 1 :=
  ⟨by rfl, by rfl, by decide⟩

/-- C2 (amended): for a response whose body is the single line
`data: ` followed by a JSON document (the buffered non-streaming shape
the remote actually sends), the decoding loop yields a sequence of
length exactly 1 containing that document. -/
theorem run_agent_sse_single_data_frame (appName userId : String)
    (sessionId : Json) (message : String) (payload : List Char) (e : Json)
    (hnl : ∀ c ∈ payload, c ≠ '\n' ∧ c ≠ '\r')
    (hparse : parseJsonStr payload = some e) :
    (run_agent_sse (.response ⟨200, dataLinePrefix ++ payload⟩)
        appName userId sessionId message false).fst
      = .ok [e] := by
  have hsplit : splitLines (dataLinePrefix ++ payload)
      = [dataLinePrefix ++ payload] := by
    have hall : ∀ c ∈ dataLinePrefix ++ payload, c ≠ '\n' ∧ c ≠ '\r' := by
      intro c hc
      rcases List.mem_append.mp hc with h | h
      · revert h
        have : ∀ c ∈ dataLinePrefix, c ≠ '\n' ∧ c ≠ '\r' := by decide
        exact this c
      · exact hnl c h
    have := splitLinesAux_no_newline (dataLinePrefix ++ payload) [] hall
    simpa [splitLines, dataLinePrefix] using this
  have hline : decodeEventLine (dataLinePrefix ++ payload) = some e := by
    have hp : List.isPrefixOf dataLinePrefix (dataLinePrefix ++ payload) = true := by
      rw [List.isPrefixOf_iff_prefix]
      exact List.prefix_append _ _
    have hd : (dataLinePrefix ++ payload).drop dataLinePrefix.length = payload :=
      List.drop_left _ _
    simp [decodeEventLine, hp, hd, hparse, dataLinePrefix]
  simp [run_agent_sse, isErrorStatus, hsplit, decodeEvents,
    List.filterMap_cons, hline]

/-- Witness for C2's amended theorem at the concrete body
`data: {"b":true}`. -/
theorem run_agent_sse_single_data_frame_witness :
    (run_agent_sse (.response ⟨200, dataLinePrefix ++ "\x7b\"b\":true\x7d".toList⟩)
        app_name "u1" (Json.str "s1") "hi" false).fst
      = .ok [Json.obj [("b", Json.bool true)]] :=
  run_agent_sse_single_data_frame app_name "u1" (Json.str "s1") "hi"
    "\x7b\"b\":true\x7d".toList (Json.obj [("b", Json.bool true)])
    (by decide) (by rfl)

/-- A successful create step returns exactly the caller-supplied id. -/
theorem createSessionStep_ok (createResult : ReqResult) (newSessionId : String)
    (v : Json) (h : createSessionStep createResult newSessionId = .ok v) :
    v = Json.str newSessionId := by
  cases createResult with
  | netFail m => simp [createSessionStep] at h
  | response cr =>
    by_cases hs : isErrorStatus cr.status = true
    · simp [createSessionStep, hs] at h
    · rw [Bool.not_eq_true] at hs
      simp [createSessionStep, hs] at h
      exact h.symm

/-- `index0` answers `some` exactly on non-empty arrays. -/
theorem Json.index0_eq_some (j first : Json) (h : j.index0 = some first) :
    ∃ rest, j = Json.arr (first :: rest) := by
  match j with
  | .null | .bool _ | .num _ | .str _ | .obj _ => simp [Json.index0] at h
  | .arr [] => simp [Json.index0] at h
  | .arr (x :: xs) =>
    simp [Json.index0] at h
    exact ⟨xs, by rw [h]⟩

/-- C3: whenever `get_or_create_session` answers success, the returned
session id is either the `id` of the first element of the array the
remote list call returned (and only the list request was issued), or
exactly the caller-supplied candidate id after the create request was
issued; no other id is ever returned. -/
theorem get_or_create_session_id_provenance
    (listResult createResult : ReqResult) (appName userId newSessionId : String)
    (v : Json) (tr : List AgentRequest)
    (h : get_or_create_session listResult createResult appName userId newSessionId
      = (.ok v, tr)) :
    (∃ r first rest, listResult = .response r
        ∧ parseJsonStr r.text = some (Json.arr (first :: rest))
        ∧ Json.getField first "id" = some v
        ∧ tr = [.listSessions appName userId])
    ∨ (v = Json.str newSessionId
        ∧ tr = [.listSessions appName userId,
            .createSession appName userId newSessionId]) := by
  cases listResult with
  | netFail m => simp [get_or_create_session] at h
  | response r =>
    by_cases hs : isErrorStatus r.status = true
    · simp [get_or_create_session, hs] at h
    · rw [Bool.not_eq_true] at hs
      cases hp : parseJsonStr r.text with
      | none => simp [get_or_create_session, hs, hp] at h
      | some sessionsList =>
        by_cases ht : sessionsList.truthy = true
        · cases hidx : sessionsList.index0 with
          | none => simp [get_or_create_session, hs, hp, ht, hidx] at h
          | some first =>
            cases hid : first.getField "id" with
            | none => simp [get_or_create_session, hs, hp, ht, hidx, hid] at h
            | some w =>
              simp [get_or_create_session, hs, hp, ht, hidx, hid] at h
              obtain ⟨rest, hj⟩ := Json.index0_eq_some sessionsList first hidx
              exact Or.inl ⟨r, first, rest, rfl, hj ▸ hp, h.1 ▸ hid, h.2.symm⟩
        · rw [Bool.not_eq_true] at ht
          simp [get_or_create_session, hs, hp, ht] at h
          exact Or.inr ⟨createSessionStep_ok createResult newSessionId v h.1, h.2.symm⟩

/-- Witness for C3 on the create path: an empty session list followed by
a successful create answers exactly the candidate id. -/
theorem get_or_create_session_id_provenance_witness :
    (∃ r first rest,
        (ReqResult.response ⟨200, "[]".toList⟩) = ReqResult.response r
        ∧ parseJsonStr r.text = some (Json.arr (first :: rest))
        ∧ Json.getField first "id" = some (Json.str "s9")
        ∧ [AgentRequest.listSessions app_name "u9",
            AgentRequest.createSession app_name "u9" "s9"]
          = [AgentRequest.listSessions app_name "u9"])
    ∨ (Json.str "s9" = Json.str "s9"
        ∧ [AgentRequest.listSessions app_name "u9",
            AgentRequest.createSession app_name "u9" "s9"]
          = [AgentRequest.listSessions app_name "u9",
              AgentRequest.createSession app_name "u9" "s9"]) :=
  get_or_create_session_id_provenance
    (.response ⟨200, "[]".toList⟩) (.response ⟨200, "\x7b\x7d".toList⟩)
    app_name "u9" "s9" (Json.str "s9")
    [AgentRequest.listSessions app_name "u9",
      AgentRequest.createSession app_name "u9" "s9"]
    (by rfl)

/-- C8: `send_message` composes credential acquisition, session
resolution and dispatch — the single env token feeds both remote stages,
the session id `v` returned by resolution (possibly different from the
candidate `sessionId`) is exactly the id carried by the dispatch
request, and the call returns the pair of the event sequence and `v`;
a credential failure, a resolution failure, or a dispatch failure
short-circuits every later stage and propagates as an exception. -/
theorem send_message_composition :
    (∀ (env : AgentEnv) (userId sessionId message msg : String),
      env.tokenResult = .error msg →
      send_message env userId sessionId message
        = (.exn "gcloud command failed", []))
    ∧ (∀ (env : AgentEnv) (userId sessionId message tok : String)
        (tr : List AgentRequest),
      env.tokenResult = .ok tok →
      get_or_create_session env.listResult env.createResult app_name
          userId sessionId = (.fail, tr) →
      send_message env userId sessionId message
        = (.exn "Failed to create or retrieve session", tr))
    ∧ (∀ (env : AgentEnv) (userId sessionId message tok : String) (v : Json)
        (tr rtr : List AgentRequest) (events : List Json),
      env.tokenResult = .ok tok →
      get_or_create_session env.listResult env.createResult app_name
          userId sessionId = (.ok v, tr) →
      run_agent_sse env.runResult app_name userId v message false
        = (.ok events, rtr) →
      send_message env userId sessionId message = (.ok events v, tr ++ rtr))
    ∧ (∀ (env : AgentEnv) (userId sessionId message tok msg : String) (v : Json)
        (tr rtr : List AgentRequest),
      env.tokenResult = .ok tok →
      get_or_create_session env.listResult env.createResult app_name
          userId sessionId = (.ok v, tr) →
      run_agent_sse env.runResult app_name userId v message false
        = (.netError msg, rtr) →
      (send_message env userId sessionId message).fst = .exn msg)
    ∧ (∀ (postResult : ReqResult) (appName userId : String) (sessionId : Json)
        (message : String) (useStreaming : Bool),
      (run_agent_sse postResult appName userId sessionId message
          useStreaming).snd
        = [.runSse appName userId sessionId message useStreaming]) := by
  refine ⟨?_, ?_, ?_, ?_, ?_⟩
  · intro env userId sessionId message msg htok
    simp [send_message, htok]
  · intro env userId sessionId message tok tr htok hsess
    simp [send_message, htok, hsess]
  · intro env userId sessionId message tok v tr rtr events htok hsess hrun
    simp [send_message, htok, hsess, hrun]
  · intro env userId sessionId message tok msg v tr rtr htok hsess hrun
    simp [send_message, htok, hsess, hrun]
  · intro postResult appName userId sessionId message useStreaming
    cases postResult with
    | netFail m => simp [run_agent_sse]
    | response r =>
      by_cases hs : isErrorStatus r.status = true
      · simp [run_agent_sse, hs]
      · rw [Bool.not_eq_true] at hs
        simp [run_agent_sse, hs]

/-- Witness for C8 on the success conjunct: an existing session `s1`
is reused for dispatch although the candidate was `s2`, and the events
are returned together with `s1`. -/
theorem send_message_composition_witness :
    send_message c8_env "u1" "s2" "hi"
      = (.ok [Json.obj [("x", Json.num 2)]] (Json.str "s1"),
          [AgentRequest.listSessions app_name "u1"]
            ++ [AgentRequest.runSse app_name "u1" (Json.str "s1") "hi" false]) :=
  send_message_composition.2.2.1 c8_env "u1" "s2" "hi" "tok" (Json.str "s1")
    [AgentRequest.listSessions app_name "u1"]
    [AgentRequest.runSse app_name "u1" (Json.str "s1") "hi" false]
    [Json.obj [("x", Json.num 2)]]
    (by rfl) (by rfl) (by rfl)

/-- C9: when dispatch succeeds with an empty event sequence, the caller
of `/message_to_agent` receives the explicit fail-status reply
"No response from agent" — not an exception and not a reply text
inferred from the empty sequence. -/
theorem message_to_agent_no_response (env : AgentEnv)
    (req : MessageToAgentRequest) (tok : String) (v : Json)
    (tr rtr : List AgentRequest)
    (htok : env.tokenResult = .ok tok)
    (hsess : get_or_create_session env.listResult env.createResult app_name
      req.user_email req.session_id = (.ok v, tr))
    (hrun : run_agent_sse env.runResult app_name req.user_email v
      req.message_to_agent false = (.ok [], rtr)) :
    message_to_agent env req
      = ⟨"fail", "No response from agent", some (.str req.session_id)⟩ := by
  simp [message_to_agent, send_message, htok, hsess, hrun]

/-- Witness for C9 at a concrete empty dispatch body. -/
theorem message_to_agent_no_response_witness :
    message_to_agent c9_env ⟨"u1", "s2", "hi"⟩
      = ⟨"fail", "No response from agent", some (.str "s2")⟩ :=
  message_to_agent_no_response c9_env ⟨"u1", "s2", "hi"⟩ "tok" (Json.str "s1")
    [AgentRequest.listSessions app_name "u1"]
    [AgentRequest.runSse app_name "u1" (Json.str "s1") "hi" false]
    (by rfl) (by rfl) (by rfl)

/-- C10: in the empty-event-sequence reply, the `session_id` field is the
request's own candidate session id, not the (different) session id that
resolution produced and dispatch actually used. -/
theorem message_to_agent_no_response_candidate_id (env : AgentEnv)
    (req : MessageToAgentRequest) (tok : String) (v : Json)
    (tr rtr : List AgentRequest)
    (htok : env.tokenResult = .ok tok)
    (hsess : get_or_create_session env.listResult env.createResult app_name
      req.user_email req.session_id = (.ok v, tr))
    (hrun : run_agent_sse env.runResult app_name req.user_email v
      req.message_to_agent false = (.ok [], rtr))
    (hne : v ≠ Json.str req.session_id) :
    (message_to_agent env req).session_id = some (Json.str req.session_id)
    ∧ (message_to_agent env req).session_id ≠ some v := by
  have hresp : message_to_agent env req
      = ⟨"fail", "No response from agent", some (.str req.session_id)⟩ := by
    simp [message_to_agent, send_message, htok, hsess, hrun]
  rw [hresp]
  refine ⟨rfl, ?_⟩
  intro hcontra
  simp only [Option.some.injEq] at hcontra
  exact hne hcontra.symm

/-- Witness for C10: candidate `s2`, resolved session `s1`, empty event
sequence — the reply carries `s2`. -/
theorem message_to_agent_no_response_candidate_id_witness :
    (message_to_agent c9_env ⟨"u1", "s2", "hi"⟩).session_id
        = some (Json.str "s2")
    ∧ (message_to_agent c9_env ⟨"u1", "s2", "hi"⟩).session_id
        ≠ some (Json.str "s1") :=
  message_to_agent_no_response_candidate_id c9_env ⟨"u1", "s2", "hi"⟩ "tok"
    (Json.str "s1")
    [AgentRequest.listSessions app_name "u1"]
    [AgentRequest.runSse app_name "u1" (Json.str "s1") "hi" false]
    (by rfl) (by rfl) (by rfl)
    (by intro h; rw [Json.str.injEq] at h; exact absurd h (by decide))
